import Mathlib

set_option linter.unusedVariables false

set_option maxRecDepth 16384

deriving instance DecidableEq for Except

/-!
Shallow embedding of the AI-Document-Auditing validation pipeline
(src/src/validation/{confidence_scorer,citation_validator,context_validator,
article_validator}.py and src/src/validation/nlp_processor.py).

Python floats are modelled as exact rationals (ℚ); all arithmetic in the
embedded code is sums, products and divisions of small decimal literals, so
the rational semantics is the intended real-number meaning of the code.
Python strings are modelled as Lean `String`s (sequences of code points,
matching Python's `len`/indexing semantics).

External libraries and services (the Anthropic LLM client together with the
`json.loads` of its reply, the spaCy sentence splitter, the fuzzywuzzy
`fuzz` scorer, the sentence-transformers embedding model, and the `re`
pattern engine used only in `_extract_citations`) are modelled as explicit
oracle parameters; everything written in the repository itself is embedded
definitionally.
-/

namespace DocAudit

/-! ### Python primitives: whitespace, words, substring search, slicing -/

/-- Python `\s` for the ASCII texts handled here: space, tab, newline,
carriage return, vertical tab, form feed. -/
def isPySpace (c : Char) : Bool :=
  c = ' ' || c = '\t' || c = '\n' || c = '\r' || c = '\x0b' || c = '\x0c'

/-- Python `\w` (ASCII range): letters, digits or underscore. -/
def isWordChar (c : Char) : Bool :=
  c.isAlphanum || c = '_'

/-- Python `re.sub(r'\s+', ' ', ·)`: every maximal whitespace run becomes one
space. -/
def collapseWs : List Char → List Char
  | [] => []
  | [c] => if isPySpace c then [' '] else [c]
  | c1 :: c2 :: cs =>
    if isPySpace c1 && isPySpace c2 then collapseWs (c2 :: cs)
    else (if isPySpace c1 then ' ' else c1) :: collapseWs (c2 :: cs)

/-- Python `str.strip()`: drop whitespace from both ends. -/
def stripChars (l : List Char) : List Char :=
  ((l.dropWhile isPySpace).reverse.dropWhile isPySpace).reverse

/-- Python `str.strip()` on strings. -/
def pyStrip (s : String) : String :=
  String.mk (stripChars s.data)

/-- Python `str.lower()` (ASCII case folding, matching the embedded texts). -/
def pyLower (s : String) : String :=
  String.mk (s.data.map Char.toLower)

/-- Python `str.find(sub)` scanning helper: index of the first occurrence of
`needle` starting from offset `i`, if any. -/
def pyFindAux (needle : List Char) : ℕ → List Char → Option ℕ
  | i, [] => if needle.isEmpty then some i else none
  | i, l@(_ :: cs) =>
    if needle.isPrefixOf l then some i else pyFindAux needle (i + 1) cs

/-- Python `str.find(sub)` (as `Option` instead of `-1`). -/
def pyFind (hay needle : String) : Option ℕ :=
  pyFindAux needle.data 0 hay.data

/-- Python `sub in s` (contiguous substring containment). -/
def pyIn (needle hay : String) : Bool :=
  (pyFind hay needle).isSome

/-- Python slice `l[start:stop]` for `0 ≤ start ≤ stop` already clipped to
the list. -/
def pySlice (l : List Char) (start stop : ℕ) : List Char :=
  (l.drop start).take (stop - start)

/-- Python list indexing with negative-index wraparound: `l[i]` is
`l[len l + i]` for `i < 0`; out of range is `none` (an `IndexError`). -/
def pyGetIdx {α : Type} (xs : List α) (i : ℤ) : Option α :=
  let j : ℤ := if i < 0 then (xs.length : ℤ) + i else i
  if 0 ≤ j then xs.get? j.toNat else none

/-- Python `str.replace(old, new)` body for nonempty `old`: left-to-right,
non-overlapping.  The fuel is an upper bound on the number of scanning
steps (the input length suffices when `old` is nonempty). -/
def replaceAllAux (needle repl : List Char) : ℕ → List Char → List Char
  | _, [] => []
  | 0, l => l
  | fuel + 1, l@(c :: cs) =>
    if needle.isPrefixOf l then repl ++ replaceAllAux needle repl fuel (l.drop needle.length)
    else c :: replaceAllAux needle repl fuel cs

/-- Python `str.replace(old, new)` (for empty `old`, Python inserts `new`
at every boundary). -/
def pyReplace (s old new : String) : String :=
  if old.data.isEmpty then
    String.mk (new.data ++ s.data.flatMap (fun c => c :: new.data))
  else
    String.mk (replaceAllAux old.data new.data s.data.length s.data)

/-- Python `str.split()` (split on whitespace runs, dropping empties). -/
def pySplit (s : String) : List String :=
  ((s.data.splitOnP isPySpace).map String.mk).filter (fun w => w ≠ "")

/-- First-occurrence deduplication.  This models Python's `list(set(...))`
(whose iteration order is unspecified) and the explicit
seen-set/append loops in the source. -/
def dedupFirstAux : List String → List String → List String
  | _, [] => []
  | seen, x :: xs =>
    if seen.contains x then dedupFirstAux seen xs
    else x :: dedupFirstAux (x :: seen) xs

/-- First-occurrence deduplication of a string list. -/
def dedupFirst (l : List String) : List String :=
  dedupFirstAux [] l

/-- Insertion step for `sortStrings`. -/
def insertSorted (x : String) : List String → List String
  | [] => [x]
  | y :: ys => if x ≤ y then x :: y :: ys else y :: insertSorted x ys

/-- Python `sorted` on strings (lexicographic by code point). -/
def sortStrings (l : List String) : List String :=
  l.foldr insertSorted []

/-- Count of `re.findall(r"\b\w+\b", ·)` matches: the number of maximal
word-character runs.  The flag records whether the previous character was a
word character. -/
def countWordRuns : List Char → Bool → ℕ
  | [], _ => 0
  | c :: cs, inWord =>
    let w := isWordChar c
    (if w && !inWord then 1 else 0) + countWordRuns cs w

/-- Count occurrences of one character. -/
def countChar (s : String) (c : Char) : ℕ :=
  (s.data.filter (· = c)).length

/-- Value of a digit list (Python `int` of a `\d+` match). -/
def digitsVal (ds : List Char) : ℕ :=
  ds.foldl (fun n c => 10 * n + (c.toNat - '0'.toNat)) 0

/-- Python `round` to an integer: round half to even (banker's rounding). -/
def pyRoundInt (q : ℚ) : ℤ :=
  let n := ⌊q⌋
  let r := q - (n : ℚ)
  if r < 1/2 then n
  else if 1/2 < r then n + 1
  else if n % 2 = 0 then n else n + 1

/-- Python `round(q, 3)`. -/
def pyRound3 (q : ℚ) : ℚ :=
  (pyRoundInt (q * 1000) : ℚ) / 1000

/-! ### NLPProcessor (src/src/validation/nlp_processor.py)

`normalize_text` is pure repository code and is embedded directly.
`split_into_sentences` delegates sentence segmentation to spaCy
(`doc.sents`), which enters as the `sents` oracle below; the repository's
own strip-and-length-filter around it is embedded. -/

/-- NLPProcessor.normalize_text: lowercase, collapse whitespace, replace
punctuation (non-word, non-space) by a space, strip. -/
def normalize_text (text : String) : String :=
  if text = "" then ""
  else
    let t1 := pyLower text
    let t2 := collapseWs t1.data
    let t3 := t2.map (fun c => if isWordChar c || isPySpace c then c else ' ')
    String.mk (stripChars t3)

/-! ### ConfidenceScorer (src/src/validation/confidence_scorer.py)

The inputs `citation_results` / `context_results` are loosely-typed
dicts-or-objects read through `get_value(result, key, default)`; they are
modelled by records carrying exactly the fields the scorer reads, with
unconstrained values (so arbitrary or missing dict entries are covered by
the quantification, a missing key being the record holding the default). -/

/-- A citation validation result as read by the scorer. -/
structure CitationResultIn where
  is_accurate : Bool
  confidence : ℚ

/-- A context validation result as read by the scorer. -/
structure ContextResultIn where
  context_preserved : Bool
  context_similarity_score : ℚ
  semantic_similarity_score : ℚ
  confidence : ℚ

/-- Source metadata as read by `_calculate_source_reliability_score`:
truthiness of the `url` / `author` / `publication_date` entries and the
`type` string (`source.get('type', '')`). -/
structure SourceMeta where
  url : Bool
  author : Bool
  publication_date : Bool
  type : String

/-- Article metadata as read by the scorer (`metadata.get(key, 0)`). -/
structure ArticleMeta where
  word_count : ℕ
  citations_count : ℕ
  sources_used : ℕ

/-- ConfidenceScore dataclass. -/
structure ConfidenceScore where
  overall_confidence : ℚ
  citation_accuracy_score : ℚ
  context_preservation_score : ℚ
  source_reliability_score : ℚ
  coherence_score : ℚ
  risk_factors : List String
  recommendations : List String
  detailed_breakdown : List (String × ℚ)

/-- ConfidenceScorer._calculate_citation_accuracy_score. -/
def calculate_citation_accuracy_score (citation_results : List CitationResultIn) : ℚ :=
  if citation_results.isEmpty then 0
  else
    let total := citation_results.length
    let accurate := (citation_results.filter (·.is_accurate)).length
    let accuracyFrac : ℚ := if 0 < total then (accurate : ℚ) / (total : ℚ) else 0
    let avg_confidence : ℚ := (citation_results.map (·.confidence)).sum / (total : ℚ)
    let final_score := accuracyFrac * 0.6 + avg_confidence * 0.4
    min 1 (max 0 final_score)

/-- ConfidenceScorer._calculate_context_preservation_score. -/
def calculate_context_preservation_score (context_results : List ContextResultIn) : ℚ :=
  if context_results.isEmpty then 0
  else
    let total := context_results.length
    let preserved := (context_results.filter (·.context_preserved)).length
    let preservedFrac : ℚ := if 0 < total then (preserved : ℚ) / (total : ℚ) else 0
    let avg_context_sim : ℚ := (context_results.map (·.context_similarity_score)).sum / (total : ℚ)
    let avg_semantic_sim : ℚ := (context_results.map (·.semantic_similarity_score)).sum / (total : ℚ)
    let avg_similarity := (avg_context_sim + avg_semantic_sim) / 2
    let avg_confidence : ℚ := (context_results.map (·.confidence)).sum / (total : ℚ)
    let final_score := preservedFrac * 0.4 + avg_similarity * 0.4 + avg_confidence * 0.2
    min 1 (max 0 final_score)

/-- Per-source reliability contribution inside
`_calculate_source_reliability_score`: base 0.5 plus the URL / author /
date / type bonuses. -/
def sourceScore (s : SourceMeta) : ℚ :=
  0.5
  + (if s.url then 0.2 else 0)
  + (if s.author then 0.1 else 0)
  + (if s.publication_date then 0.1 else 0)
  + (let t := pyLower s.type
     if t = "academic" || t = "peer-reviewed" || t = "journal" then 0.1
     else if t = "news" || t = "magazine" then 0.05
     else 0)

/-- ConfidenceScorer._calculate_source_reliability_score.  The Python
parameter defaults to `None`; both `None` and `[]` take the
`if not source_metadata` branch, modelled by the empty list. -/
def calculate_source_reliability_score (source_metadata : List SourceMeta) : ℚ :=
  if source_metadata.isEmpty then 0.8
  else (source_metadata.map sourceScore).sum / (source_metadata.length : ℚ)

/-- ConfidenceScorer._calculate_text_coherence_score. -/
def calculate_text_coherence_score (article_metadata : ArticleMeta) : ℚ :=
  let base : ℚ := 0.7
  let word_count := article_metadata.word_count
  let citations_count := article_metadata.citations_count
  let sources_used := article_metadata.sources_used
  let s1 :=
    if 0 < word_count then
      let density : ℚ := (citations_count : ℚ) / (word_count : ℚ) * 1000
      if 5 ≤ density ∧ density ≤ 20 then base + 0.1
      else if 20 < density then base - 0.1
      else base
    else base
  let s2 :=
    if 3 ≤ sources_used then s1 + 0.1
    else if sources_used < 2 then s1 - 0.1
    else s1
  let s3 :=
    if 500 ≤ word_count ∧ word_count ≤ 3000 then s2 + 0.1
    else if word_count < 200 then s2 - 0.1
    else s2
  min 1 (max 0 s3)

/-- ConfidenceScorer._identify_risk_factors. -/
def identify_risk_factors (citation_results : List CitationResultIn)
    (context_results : List ContextResultIn) (article_metadata : ArticleMeta) :
    List String :=
  let r1 :=
    if citation_results.isEmpty then []
    else
      let inaccurate := (citation_results.filter (fun r => !r.is_accurate)).length
      let a :=
        if (citation_results.length : ℚ) * 0.3 < (inaccurate : ℚ) then
          ["High number of inaccurate citations"]
        else []
      let lowc := (citation_results.filter (fun r => r.confidence < 0.5)).length
      let b :=
        if (citation_results.length : ℚ) * 0.3 < (lowc : ℚ) then
          [s!"{lowc} citations with low confidence scores (<50%)"]
        else []
      let zc := (citation_results.filter (fun r => r.confidence = 0)).length
      let c :=
        if 0 < zc then [s!"{zc} citations with zero confidence (unvalidated)"]
        else []
      a ++ b ++ c
  let r2 :=
    if context_results.isEmpty then []
    else
      let bad := (context_results.filter (fun r => !r.context_preserved)).length
      let a :=
        if (context_results.length : ℚ) * 0.2 < (bad : ℚ) then
          [s!"{bad} citations with context preservation issues"]
        else []
      let lowc := (context_results.filter (fun r => r.confidence < 0.6)).length
      let b :=
        if (context_results.length : ℚ) * 0.3 < (lowc : ℚ) then
          [s!"{lowc} citations with low context confidence"]
        else []
      a ++ b
  let wc := article_metadata.word_count
  let cc := article_metadata.citations_count
  let r3 := if wc < 200 then ["Article is very short, may lack sufficient detail"] else []
  let r4 :=
    if cc = 0 then ["No citations found in article"]
    else if cc < 2 then ["Very few citations, limited source support"]
    else []
  r1 ++ r2 ++ r3 ++ r4

/-- ConfidenceScorer._generate_recommendations. -/
def generate_recommendations (citation_score context_score source_score coherence_score : ℚ) :
    List String :=
  let a := if citation_score < 0.7 then ["Improve citation accuracy by verifying quotes and references"] else []
  let b := if context_score < 0.7 then ["Ensure citations preserve original context and meaning"] else []
  let c := if source_score < 0.6 then ["Use more reliable and authoritative sources"] else []
  let d := if coherence_score < 0.6 then ["Improve article structure and coherence"] else []
  let e :=
    if citation_score < 0.8 ∧ context_score < 0.8 ∧ source_score < 0.8 ∧ coherence_score < 0.8 then
      ["Consider comprehensive review and revision of the article"]
    else []
  let recs := a ++ b ++ c ++ d ++ e
  if recs.isEmpty then ["Article meets quality standards - no specific improvements needed"]
  else recs

/-- ConfidenceScorer.calculate_overall_confidence.  The `feature_weights`
dict is {citation_accuracy: 0.4, context_preservation: 0.3,
source_reliability: 0.2, text_coherence: 0.1}. -/
def calculate_overall_confidence (citation_results : List CitationResultIn)
    (context_results : List ContextResultIn) (article_metadata : ArticleMeta)
    (source_metadata : List SourceMeta) : ConfidenceScore :=
  let citation_score := calculate_citation_accuracy_score citation_results
  let context_score := calculate_context_preservation_score context_results
  let source_score := calculate_source_reliability_score source_metadata
  let coherence_score := calculate_text_coherence_score article_metadata
  let overall_confidence :=
    citation_score * 0.4 + context_score * 0.3 + source_score * 0.2 + coherence_score * 0.1
  { overall_confidence := overall_confidence
    citation_accuracy_score := citation_score
    context_preservation_score := context_score
    source_reliability_score := source_score
    coherence_score := coherence_score
    risk_factors := identify_risk_factors citation_results context_results article_metadata
    recommendations := generate_recommendations citation_score context_score source_score coherence_score
    detailed_breakdown :=
      [("citation_accuracy", citation_score), ("context_preservation", context_score),
       ("source_reliability", source_score), ("text_coherence", coherence_score),
       ("weighted_overall", overall_confidence)] }

/-! ### CitationValidator (src/src/validation/citation_validator.py)

External effects enter through `CitationOracles`:
`sents` is spaCy's `doc.sents` segmentation (texts of the sentences);
`fuzzRatio100` is fuzzywuzzy's `fuzz.ratio` (an integer 0..100);
`llmSingle` / `llmBatch` are the outcome of the `generate_text` call plus
`json.loads` of its reply inside `_validate_with_llm` /
`_validate_citations_batch` (`Except.error` when the call or the parse
raises — including when no client is configured at all);
`findall` is `re.findall(pattern, text, re.IGNORECASE)` as used by
`_extract_citations`. -/

/-- A source dict as read by the validator: `source.get('content', '')`
and `source.get('id')`. -/
structure Source where
  id : Option String
  content : String

/-- CitationValidationResult dataclass (with its `__post_init__` default of
`issues = []`). -/
structure CitationValidationResult where
  citation_text : String
  is_accurate : Bool
  accuracy_score : ℚ
  exact_match : Bool
  fuzzy_match_score : ℚ
  source_found : Bool
  source_id : Option String := none
  issues : List String := []
  confidence : ℚ := 0
deriving DecidableEq

/-- The parsed JSON object returned by the single-citation LLM prompt, read
through `.get(key, default)`; a missing key is the default value. -/
structure LLMCitationJudgment where
  is_accurate : Bool := false
  accuracy_score : ℚ := 0
  source_found : Bool := false
  source_id : Option String := none
  issues : List String := []
  confidence : ℚ := 0

/-- One element of the `results` array parsed from the batch LLM reply,
read through `.get(key, default)`.  `citation_number` is present in the
prompt's JSON schema but never read back by the conversion code. -/
structure BatchItem where
  citation_number : ℕ := 0
  citation_text : String := ""
  is_accurate : Bool := false
  accuracy_score : ℚ := 0
  source_found : Bool := false
  source_id : Option String := none
  issues : List String := []
  confidence : ℚ := 0

/-- Python exceptions that can escape the embedded code. -/
inductive PyErr where
  | indexError
  | nameError (missing : String)
deriving DecidableEq

/-- External-library oracles for the citation validator. -/
structure CitationOracles where
  sents : String → List String
  fuzzRatio100 : String → String → ℕ
  llmSingle : String → List Source → Except String LLMCitationJudgment
  llmBatch : List String → List Source → Except String (List BatchItem)
  findall : String → String → List String

/-- NLPProcessor.split_into_sentences: spaCy sentences, stripped, keeping
only those of length > 10. -/
def split_into_sentences (O : CitationOracles) (text : String) : List String :=
  if text = "" then []
  else ((O.sents text).map pyStrip).filter (fun s => 10 < s.length)

/-- CitationValidator._find_exact_match: first source whose normalized
content contains the normalized citation. -/
def find_exact_match (citation : String) (sources : List Source) :
    Bool × Option String :=
  let cn := normalize_text citation
  match sources.find? (fun s => pyIn cn (normalize_text s.content)) with
  | some s => (true, s.id)
  | none => (false, none)

/-- CitationValidator._extract_potential_matches: sentences of the source
sharing at least 50% (distinct-)word overlap with the citation. -/
def extract_potential_matches (O : CitationOracles) (citation source_content : String) :
    List String :=
  let cws := (pySplit (pyLower citation)).dedup
  (split_into_sentences O source_content).filter (fun sent =>
    let sws := pySplit (pyLower sent)
    decide ((cws.length : ℚ) * 0.5 ≤ ((cws.filter (fun w => sws.contains w)).length : ℚ)))

/-- The best-score / best-source loop of `_find_fuzzy_match` (strictly
better scores replace the current best, so the first maximiser wins). -/
def fuzzyBest (O : CitationOracles) (citation : String) (sources : List Source) :
    ℚ × Option String :=
  sources.foldl (fun acc source =>
    (extract_potential_matches O citation source.content).foldl (fun acc m =>
      let sc : ℚ := (O.fuzzRatio100 (pyLower citation) (pyLower m) : ℚ) / 100
      if acc.1 < sc then (sc, source.id) else acc) acc)
    (0, none)

/-- CitationValidator._find_fuzzy_match: the best fuzzy score if it reaches
the threshold (default 0.8), else `(0, none)`. -/
def find_fuzzy_match (O : CitationOracles) (citation : String) (sources : List Source)
    (threshold : ℚ := 0.8) : ℚ × Option String :=
  let b := fuzzyBest O citation sources
  if threshold ≤ b.1 then b else (0, none)

/-- Case-insensitive-capable character comparison for the literal parts of
regex patterns. -/
def charEqCI (ci : Bool) (a b : Char) : Bool :=
  if ci then a.toLower == b.toLower else a == b

/-- Match a literal character sequence, returning the remainder. -/
def matchLitCI (ci : Bool) : List Char → List Char → Option (List Char)
  | [], rest => some rest
  | _ :: _, [] => none
  | p :: ps, c :: cs => if charEqCI ci p c then matchLitCI ci ps cs else none

/-- Match of the anchored pattern `\[Source (\d+)\]` at the head of a
character list: the literal `[Source `, one or more digits, `]`; returns
the parsed number and the remaining characters. -/
def matchSourceRef (l : List Char) : Option (ℕ × List Char) :=
  match matchLitCI false ['[', 'S', 'o', 'u', 'r', 'c', 'e', ' '] l with
  | none => none
  | some rest =>
    let ds := rest.takeWhile Char.isDigit
    if ds.isEmpty then none
    else
      match rest.dropWhile Char.isDigit with
      | ']' :: tail => some (digitsVal ds, tail)
      | _ => none

/-- Python `re.match(r'\[Source (\d+)\]', citation)`: the source number
when the citation starts with a `[Source N]` marker. -/
def parseSourceRef (citation : String) : Option ℕ :=
  (matchSourceRef citation.data).map Prod.fst

/-- CitationValidator._validate_source_reference.  The in-range branch
evaluates Python's `sources[source_number - 1]`, which for
`source_number = 0` is `sources[-1]` — the last source when the list is
nonempty, an `IndexError` when it is empty. -/
def validate_source_reference (citation : String) (sources : List Source) :
    Except PyErr CitationValidationResult :=
  match parseSourceRef citation with
  | none =>
    .ok { citation_text := citation, is_accurate := false, accuracy_score := 0,
          exact_match := false, fuzzy_match_score := 0, source_found := false,
          issues := ["Invalid source reference format"], confidence := 0 }
  | some source_number =>
    if source_number ≤ sources.length then
      match pyGetIdx sources ((source_number : ℤ) - 1) with
      | some s =>
        .ok { citation_text := citation, is_accurate := true, accuracy_score := 1,
              exact_match := true, fuzzy_match_score := 1, source_found := true,
              source_id := s.id, confidence := 1 }
      | none => .error .indexError
    else
      .ok { citation_text := citation, is_accurate := false, accuracy_score := 0,
            exact_match := false, fuzzy_match_score := 0, source_found := false,
            issues := [s!"Source {source_number} not found in available sources"],
            confidence := 0 }

/-- CitationValidator._validate_with_llm: the parsed LLM judgment, or the
hard-coded zero-confidence fallback dict when the call or the JSON parse
raises (`except Exception`). -/
def validate_with_llm (O : CitationOracles) (citation : String) (sources : List Source) :
    LLMCitationJudgment :=
  match O.llmSingle citation sources with
  | .ok j => j
  | .error _ =>
    { is_accurate := false, accuracy_score := 0, source_found := false,
      issues := ["LLM validation failed"], confidence := 0 }

/-- CitationValidator._validate_single_citation: `[Source N]` fast path,
then exact match, then fuzzy match accepted only when strictly above 0.8,
then LLM adjudication. -/
def validate_single_citation (O : CitationOracles) (citation : String)
    (sources : List Source) : Except PyErr CitationValidationResult :=
  if (parseSourceRef citation).isSome then
    validate_source_reference citation sources
  else
    let em := find_exact_match citation sources
    if em.1 then
      .ok { citation_text := citation, is_accurate := true, accuracy_score := 1,
            exact_match := true, fuzzy_match_score := 1, source_found := true,
            source_id := em.2, confidence := 1 }
    else
      let fm := find_fuzzy_match O citation sources
      if 0.8 < fm.1 then
        .ok { citation_text := citation, is_accurate := true, accuracy_score := fm.1,
              exact_match := false, fuzzy_match_score := fm.1, source_found := true,
              source_id := fm.2, confidence := fm.1 }
      else
        let j := validate_with_llm O citation sources
        .ok { citation_text := citation, is_accurate := j.is_accurate,
              accuracy_score := j.accuracy_score, exact_match := false,
              fuzzy_match_score := fm.1, source_found := j.source_found,
              source_id := j.source_id, issues := j.issues, confidence := j.confidence }

/-- Conversion of one parsed batch item into a CitationValidationResult
(lines 213-224 of citation_validator.py); `citation_number` is ignored. -/
def batchItemToResult (item : BatchItem) : CitationValidationResult :=
  { citation_text := item.citation_text, is_accurate := item.is_accurate,
    accuracy_score := item.accuracy_score, exact_match := false,
    fuzzy_match_score := 0, source_found := item.source_found,
    source_id := item.source_id, issues := item.issues,
    confidence := item.confidence }

/-- CitationValidator._validate_citations_batch: `none` when the LLM call
or the JSON parse raises, otherwise the converted `results` items —
however many the model returned, in the model's order. -/
def validate_citations_batch (O : CitationOracles) (citations : List String)
    (sources : List Source) : Option (List CitationValidationResult) :=
  match O.llmBatch citations sources with
  | .error _ => none
  | .ok items => some (items.map batchItemToResult)

/-- Fuel-driven chunking body for `chunksOf`. -/
def chunksOfAux {α : Type} (n : ℕ) : ℕ → List α → List (List α)
  | _, [] => []
  | 0, l => [l]
  | fuel + 1, l => l.take n :: chunksOfAux n fuel (l.drop n)

/-- Python `citations[i:i + chunk_size]` over `range(0, len, chunk_size)`
for a positive chunk size. -/
def chunksOf {α : Type} (n : ℕ) (l : List α) : List (List α) :=
  chunksOfAux n l.length l

/-- Head removal for `re.sub(r'^\[Source \d+\]\s*', '', ·)`: when the text
starts with a `[Source N]` marker, drop it and the whitespace after it. -/
def dropSourceRefHead (l : List Char) : List Char :=
  match matchSourceRef l with
  | some (_, rest) => rest.dropWhile isPySpace
  | none => l

/-- Head removal for `re.sub(r'^\[\d+\]\s*', '', ·)`. -/
def dropNumRefHead (l : List Char) : List Char :=
  match l with
  | '[' :: rest =>
    let ds := rest.takeWhile Char.isDigit
    if ds.isEmpty then l
    else
      match rest.dropWhile Char.isDigit with
      | ']' :: tail => tail.dropWhile isPySpace
      | _ => l
  | _ => l

/-- CitationValidator._clean_citation: strip and collapse whitespace, then
remove a leading `[Source N]` marker, then a leading `[N]` marker. -/
def clean_citation (citation : String) : String :=
  let c1 := collapseWs (stripChars citation.data)
  String.mk (dropNumRefHead (dropSourceRefHead c1))

/-- The `citation_patterns` of the constructor plus the
`enhanced_patterns` of `_extract_citations`, in the order they are
scanned.  (`\x7b`/`\x7d` denote literal braces of the regex quantifiers.) -/
def allPatterns : List String :=
  ["\\[Source \\d+\\]",
   "\\[\\d+\\]",
   "\\([^)]*\\d+[^)]*\\)",
   "\"[^\"]*\"",
   "\\b(?:according to|as stated by|in the words of)\\s+[^.]*",
   "\"([^\"]\x7b20,200\x7d)\"",
   "\"([^\"]\x7b50,500\x7d)\"",
   "\\[Source \\d+\\]",
   "According to [^.]\x7b10,100\x7d\\.",
   "Research from [^.]\x7b10,100\x7d\\.",
   "Studies show [^.]\x7b10,100\x7d\\.",
   "\\d+% of [^.]\x7b5,50\x7d\\.",
   "\\d+ out of \\d+ [^.]\x7b5,50\x7d\\.",
   "(?:the|a|an) \\w+ (?:study|research|survey|report|analysis) [^.]\x7b10,100\x7d\\.",
   "(?:findings|results|data) [^.]\x7b10,100\x7d\\.",
   "(?:Dr\\.|Professor|Mr\\.|Ms\\.) [A-Z][a-z]+ [A-Z][a-z]+[^.]\x7b5,50\x7d\\."]

/-- The `common_phrases` exclusion set of `_extract_citations`. -/
def common_phrases : List String :=
  ["according to", "research shows", "studies indicate", "findings suggest",
   "data shows", "results indicate", "analysis reveals", "survey shows"]

/-- All raw regex matches collected by `_extract_citations`: the `findall`
results of every pattern, concatenated in pattern order. -/
def rawMatches (O : CitationOracles) (text : String) : List String :=
  allPatterns.flatMap (fun p => O.findall p text)

/-- CitationValidator._extract_citations: collect raw matches, deduplicate
(`list(set(...))`, modelled as first-occurrence dedup), clean each match,
keep lengths in [10, 500], and drop citations containing a common phrase. -/
def extract_citations (O : CitationOracles) (text : String) : List String :=
  let cs := dedupFirst (rawMatches O text)
  let cs := cs.map clean_citation
  let cs := cs.filter (fun c => decide (10 ≤ c.length) && decide (c.length ≤ 500))
  cs.filter (fun c => !(common_phrases.any (fun p => pyIn p (pyLower c))))

/-- A string that is exactly a `[Source N]` marker — the shape of every
full match of the source-reference pattern `\[Source \d+\]`. -/
def isBareSourceMarker (m : String) : Bool :=
  match matchSourceRef m.data with
  | some (_, []) => true
  | _ => false

/-- CitationValidator.validate_citations.  With more than one citation the
chunks of 20 go through batch validation; a chunk whose batch result is
falsy (`None` or the empty list) falls back to per-citation validation.
Items the batch reply did not cover are not reconciled — the returned list
is exactly the concatenation of what each chunk produced.  The
`confidence_threshold` parameter only feeds a log line and does not affect
the returned value. -/
def validate_citations (O : CitationOracles) (article_content : String)
    (sources : List Source) (confidence_threshold : ℚ := 0.8)
    (citations? : Option (List String) := none) :
    Except PyErr (List CitationValidationResult) := do
  let citations :=
    match citations? with
    | none => extract_citations O article_content
    | some cs => cs
  if 1 < citations.length then
    (chunksOf 20 citations).foldlM (fun acc chunk => do
      match validate_citations_batch O chunk sources with
      | some batch =>
        if batch.isEmpty then
          let rs ← chunk.mapM (fun c => validate_single_citation O c sources)
          pure (acc ++ rs)
        else
          pure (acc ++ batch)
      | none =>
        let rs ← chunk.mapM (fun c => validate_single_citation O c sources)
        pure (acc ++ rs)) []
  else
    citations.mapM (fun c => validate_single_citation O c sources)

/-! ### ContextValidator (src/src/validation/context_validator.py)

`ContextOracles.encode` is the sentence-transformers embedding plus cosine
similarity inside `_calculate_semantic_similarity`'s `try` block
(`Except.error` when it raises); `llmAnalyze` is the `generate_text` call
plus `json.loads` inside `_analyze_with_llm`'s `try` block.  The
instance's `similarity_threshold` is 0.7. -/

/-- ContextValidationResult dataclass (with its `__post_init__` default of
`issues = []`). -/
structure ContextValidationResult where
  citation_text : String
  original_context : String
  article_context : String
  context_preserved : Bool
  context_similarity_score : ℚ
  semantic_similarity_score : ℚ
  meaning_preserved : Bool
  issues : List String := []
  confidence : ℚ := 0
  detailed_analysis : String := ""

/-- The parsed JSON object returned by the context-analysis LLM prompt,
read through `.get(key, default)`. -/
structure LLMContextAnalysis where
  context_preserved : Bool := false
  meaning_preserved : Bool := false
  confidence : ℚ := 0
  issues : List String := []
  analysis : String := ""

/-- External-library oracles for the context validator. -/
structure ContextOracles where
  encode : String → String → Except String ℚ
  llmAnalyze : String → String → String → Except String LLMContextAnalysis

/-- ContextValidator._calculate_semantic_similarity: 0 for an empty text,
the embedding cosine similarity otherwise, 0 again if the embedding raises. -/
def calculate_semantic_similarity (O : ContextOracles) (text1 text2 : String) : ℚ :=
  if text1 = "" ∨ text2 = "" then 0
  else
    match O.encode text1 text2 with
    | .ok v => v
    | .error _ => 0

/-- ContextValidator._calculate_context_similarity: remove the citation
substring from both windows, strip, and compare the remainders. -/
def calculate_context_similarity (O : ContextOracles) (citation original_context article_context : String) : ℚ :=
  calculate_semantic_similarity O
    (pyStrip (pyReplace original_context citation ""))
    (pyStrip (pyReplace article_context citation ""))

/-- ContextValidator._analyze_with_llm: the parsed LLM analysis, or the
hard-coded failure dict when the call or the parse raises. -/
def analyze_with_llm (O : ContextOracles) (citation original_context article_context : String) :
    LLMContextAnalysis :=
  match O.llmAnalyze citation original_context article_context with
  | .ok a => a
  | .error _ =>
    { context_preserved := false, meaning_preserved := false, confidence := 0,
      issues := ["LLM analysis failed"],
      analysis := "Unable to analyze context due to technical error" }

/-- ContextValidator._extract_original_context: a ±200-character window
around the case-insensitive first occurrence of the citation, stripped;
empty when the citation does not occur. -/
def extract_original_context (citation source_content : String)
    (context_window : ℕ := 200) : String :=
  match pyFind (pyLower source_content) (pyLower citation) with
  | none => ""
  | some pos =>
    let start := pos - context_window
    let stop := min source_content.length (pos + citation.length + context_window)
    String.mk (stripChars (pySlice source_content.data start stop))

/-- ContextValidator._extract_article_context (same computation over the
article content). -/
def extract_article_context (citation article_content : String)
    (context_window : ℕ := 200) : String :=
  match pyFind (pyLower article_content) (pyLower citation) with
  | none => ""
  | some pos =>
    let start := pos - context_window
    let stop := min article_content.length (pos + citation.length + context_window)
    String.mk (stripChars (pySlice article_content.data start stop))

/-- ContextValidator._validate_single_context: windows, the two similarity
scores, the LLM analysis, the 0.7-threshold conjunction for
`context_preserved`, and the 0.4/0.3/0.3 confidence blend. -/
def validate_single_context (O : ContextOracles) (citation : String) (source : Source)
    (article_content : String) : ContextValidationResult :=
  let original_context := extract_original_context citation source.content
  let article_context := extract_article_context citation article_content
  let semantic_score := calculate_semantic_similarity O original_context article_context
  let context_score := calculate_context_similarity O citation original_context article_context
  let llm := analyze_with_llm O citation original_context article_context
  let context_preserved :=
    decide ((0.7 : ℚ) ≤ semantic_score) && decide ((0.7 : ℚ) ≤ context_score)
      && llm.context_preserved
  let confidence := semantic_score * 0.4 + context_score * 0.3 + llm.confidence * 0.3
  { citation_text := citation
    original_context := original_context
    article_context := article_context
    context_preserved := context_preserved
    context_similarity_score := context_score
    semantic_similarity_score := semantic_score
    meaning_preserved := llm.meaning_preserved
    issues := llm.issues
    confidence := confidence
    detailed_analysis := llm.analysis }

/-! ### ArticleValidator (src/src/validation/article_validator.py)

This validator is deterministic and LLM-free, so it is embedded with no
oracles.  Its module imports are `re`, `dataclasses` and `typing` only:
the name `datetime` used on the final line of `validate` is unbound, so
building the result dict raises `NameError`. -/

/-- ArticleValidationIssue dataclass. -/
structure ArticleValidationIssue where
  code : String
  message : String
  severity : String := "error"
  evidence : Option String := none
deriving DecidableEq

/-- The `context_rating_details` metadata dict, read through
`.get(key, 0.0)` on float sub-scores. -/
structure ContextRatingDetails where
  citation_quality : ℚ := 0
  source_reference_validity : ℚ := 0
  content_source_alignment : ℚ := 0

/-- The metadata dict as read by ArticleValidator.validate.  A `none`
`context_rating_details` covers both a missing key and an empty dict
(both falsy under `details = ... or {}` / `if details:`). -/
structure ValidatorMetadata where
  overall_context_rating : Option ℚ := none
  context_rating_details : Option ContextRatingDetails := none

/-- The numeric metrics assembled by `_evaluate_context_rating`. -/
structure RatingMetrics where
  source_reference_count : ℕ
  citations_with_quotes : ℕ
  citation_density : ℚ
  overall_context_rating : Option ℚ
  expected_context_rating : Option ℚ

/-- ArticleValidator.DEFAULT_LENGTH_RANGES. -/
def DEFAULT_LENGTH_RANGES : List (String × (ℕ × ℕ)) :=
  [("short", (500, 800)), ("medium", (1000, 1500)), ("long", (2000, 3000))]

/-- `self.length_ranges.get(length, self.DEFAULT_LENGTH_RANGES["medium"])`. -/
def lookupRange (ranges : List (String × (ℕ × ℕ))) (length : String) : ℕ × ℕ :=
  (((ranges.find? (fun p => p.1 == length)).map Prod.snd)).getD (1000, 1500)

/-- ArticleValidator.PROMPT_PHRASES. -/
def PROMPT_PHRASES : List String :=
  ["critical citation requirements", "mandatory citation examples",
   "critical format requirements", "citation placement rules",
   "critical quote context requirements", "please generate the article now",
   "you previously generated an article", "count your words as you write",
   "do not start the article"]

/-- ArticleValidator._count_words: `len(re.findall(r"\b\w+\b", text))`. -/
def count_words (text : String) : ℕ :=
  countWordRuns text.data false

/-- ArticleValidator._check_word_count. -/
def check_word_count (ranges : List (String × (ℕ × ℕ))) (word_count : ℕ)
    (length : String) : Option ArticleValidationIssue :=
  let tr := lookupRange ranges length
  let tmin := tr.1
  let tmax := tr.2
  if word_count < tmin ∨ tmax < word_count then
    some { code := "word_count_non_compliant",
           message := s!"Article word count {word_count} is outside the target range {tmin}-{tmax}.",
           severity := "error" }
  else none

/-- A `[a-z0-9]` character (the prompt text is already lowercased). -/
def isFragStart (c : Char) : Bool :=
  c.isLower || c.isDigit

/-- A `[a-z0-9\s]` character. -/
def isFragBody (c : Char) : Bool :=
  isFragStart c || isPySpace c

/-- `re.finditer(r"[a-z0-9][a-z0-9\s]{24,120}", ·)`: at each position, one
start character followed greedily by 24 to 120 body characters;
non-overlapping, resuming after each match.  The fuel is the text length. -/
def fragScanAux : ℕ → List Char → List (List Char)
  | _, [] => []
  | 0, _ => []
  | fuel + 1, c :: cs =>
    if isFragStart c then
      let body := (cs.takeWhile isFragBody).take 120
      if 24 ≤ body.length then (c :: body) :: fragScanAux fuel (cs.drop body.length)
      else fragScanAux fuel cs
    else fragScanAux fuel cs

/-- ArticleValidator._extract_prompt_fragments. -/
def extract_prompt_fragments (prompt_text : String) : List String :=
  if prompt_text = "" then []
  else
    let raw := (fragScanAux prompt_text.data.length prompt_text.data).map
      (fun f => pyStrip (String.mk f))
    let raw := raw.filter (fun f => 5 ≤ (pySplit f).length)
    let raw := raw.filter (fun f => 15 ≤ (f.data.filter Char.isAlpha).length)
    (dedupFirst raw).take 10

/-- ArticleValidator._detect_prompt_leakage. -/
def detect_prompt_leakage (article_content : String) (prompt_text : Option String) :
    List ArticleValidationIssue :=
  if article_content = "" then []
  else
    let article_normalized := String.mk (collapseWs (pyLower article_content).data)
    let detected :=
      PROMPT_PHRASES.filter (fun p => pyIn p article_normalized)
      ++ (match prompt_text with
          | some pt =>
            if pt = "" then []
            else
              let pn := String.mk (collapseWs (pyLower pt).data)
              (extract_prompt_fragments pn).filter (fun f => pyIn f article_normalized)
          | none => [])
    let unique := sortStrings (dedupFirst detected)
    if unique.isEmpty then []
    else
      [{ code := "prompt_leakage",
         message := "Article appears to include instructions or fragments from the generation prompt.",
         severity := "error",
         evidence := some (String.intercalate ", " (unique.take 3)) }]

/-- Match of `\[Source\s+\d+\]` at the head of a character list (with
`ci = true` for the `re.IGNORECASE` uses), returning the match length. -/
def matchMarkerWS (ci : Bool) (l : List Char) : Option ℕ :=
  match l with
  | '[' :: r1 =>
    match matchLitCI ci ['S', 'o', 'u', 'r', 'c', 'e'] r1 with
    | none => none
    | some r2 =>
      let ws := r2.takeWhile isPySpace
      if ws.isEmpty then none
      else
        let r3 := r2.dropWhile isPySpace
        let ds := r3.takeWhile Char.isDigit
        if ds.isEmpty then none
        else
          match r3.dropWhile Char.isDigit with
          | ']' :: _ => some (1 + 6 + ws.length + ds.length + 1)
          | _ => none
  | _ => none

/-- `re.finditer(r"\[Source\s+\d+\]", ·)`: the `(start, length)` pairs of
the non-overlapping matches, left to right.  The fuel is the text
length. -/
def findMarkersAux (ci : Bool) : ℕ → ℕ → List Char → List (ℕ × ℕ)
  | _, _, [] => []
  | 0, _, _ => []
  | fuel + 1, pos, l@(_ :: cs) =>
    match matchMarkerWS ci l with
    | some len => (pos, len) :: findMarkersAux ci fuel (pos + len) (l.drop len)
    | none => findMarkersAux ci fuel (pos + 1) cs

/-- All `\[Source\s+\d+\]` matches in a string. -/
def findMarkers (ci : Bool) (s : String) : List (ℕ × ℕ) :=
  findMarkersAux ci s.data.length 0 s.data

/-- Matched text of a marker occurrence. -/
def markerText (s : String) (m : ℕ × ℕ) : String :=
  String.mk (pySlice s.data m.1 (m.1 + m.2))

/-- Whether `article_content[max(0, start-120):start]` contains a double
quote. -/
def windowHasQuote (l : List Char) (start : ℕ) : Bool :=
  (pySlice l (start - 120) start).contains '"'

/-- Tail of the `re.search(r'"[^"\n]*\[Source\s+\d+\]', ·)` test: a marker
after a run of non-quote, non-newline characters. -/
def markerAfterRun : List Char → Bool
  | [] => false
  | l@(c :: cs) =>
    (matchMarkerWS false l).isSome || (if c ≠ '"' && c ≠ '\n' then markerAfterRun cs else false)

/-- `re.search(r'"[^"\n]*\[Source\s+\d+\]', ·)` as a Boolean. -/
def quoteThenMarker : List Char → Bool
  | [] => false
  | c :: cs => (c = '"' && markerAfterRun cs) || quoteThenMarker cs

/-- ArticleValidator._check_quote_formatting. -/
def check_quote_formatting (article_content : String) (include_citations : Bool) :
    List ArticleValidationIssue :=
  let i1 :=
    if (countChar article_content '"') % 2 ≠ 0 then
      [{ code := "unbalanced_quotes",
         message := "Detected unbalanced double quotes in the article.",
         severity := "error" : ArticleValidationIssue }]
    else []
  let i2 :=
    if countChar article_content '“' ≠ countChar article_content '”' then
      [{ code := "unbalanced_smart_quotes",
         message := "Detected mismatched smart quotes (opening vs closing).",
         severity := "warning" : ArticleValidationIssue }]
    else []
  let i3 :=
    if pyIn "\"\"" article_content then
      [{ code := "empty_or_nested_quotes",
         message := "Detected empty or nested double quotes.",
         severity := "warning" : ArticleValidationIssue }]
    else []
  let i4 :=
    if quoteThenMarker article_content.data then
      [{ code := "quote_contains_source_marker",
         message := "Source markers must be placed outside quotation marks.",
         severity := "error" : ArticleValidationIssue }]
    else []
  let i5 :=
    if include_citations then
      let bad := (findMarkers false article_content).filter
        (fun m => !windowHasQuote article_content.data m.1)
      if bad.isEmpty then []
      else
        [{ code := "source_reference_without_quote",
           message := "Found source references without surrounding quoted text.",
           severity := "error",
           evidence := some (String.intercalate ", "
             ((sortStrings (dedupFirst (bad.map (markerText article_content)))).take 3)) :
           ArticleValidationIssue }]
    else []
  i1 ++ i2 ++ i3 ++ i4 ++ i5

/-- Python `format(q, '.2f')` on the exact rational value. -/
def fmt2 (q : ℚ) : String :=
  let n := pyRoundInt (q * 100)
  let sign := if n < 0 then "-" else ""
  let m := n.natAbs
  let fp := m % 100
  let fps := if fp < 10 then "0" ++ toString fp else toString fp
  sign ++ toString (m / 100) ++ "." ++ fps

/-- ArticleValidator._evaluate_context_rating.  In this typed model the
detail sub-scores are floats, so the `try` around the expected-rating
computation cannot raise and the `details.get("overall_rating")` fallback
is unreachable. -/
def evaluate_context_rating (article_content : String) (metadata : ValidatorMetadata)
    (word_count : ℕ) (include_citations : Bool) :
    List ArticleValidationIssue × RatingMetrics :=
  let overall_rating := metadata.overall_context_rating
  let refs := findMarkers true article_content
  let cwq := (refs.filter (fun m => windowHasQuote article_content.data m.1)).length
  let density : ℚ :=
    if 0 < word_count then (cwq : ℚ) / max 1 ((word_count : ℚ) / 200) else 0
  let expected : Option ℚ := metadata.context_rating_details.map (fun d =>
    d.citation_quality * 0.5 + d.source_reference_validity * 0.3
      + d.content_source_alignment * 0.2)
  let metrics : RatingMetrics :=
    { source_reference_count := refs.length, citations_with_quotes := cwq,
      citation_density := pyRound3 density, overall_context_rating := overall_rating,
      expected_context_rating := expected }
  let issues :=
    match overall_rating with
    | some r =>
      let a :=
        if ¬ (0 ≤ r ∧ r ≤ 1) then
          [{ code := "context_rating_out_of_range",
             message := "Overall context rating must be between 0 and 1.",
             severity := "error" : ArticleValidationIssue }]
        else []
      let b :=
        match expected with
        | some e =>
          if 0.15 < |r - e| then
            let rs := fmt2 r
            let es := fmt2 e
            [{ code := "context_rating_mismatch",
               message := s!"Overall context rating deviates from the component scores (overall {rs} vs expected {es}).",
               severity := "warning" : ArticleValidationIssue }]
          else []
        | none => []
      let c :=
        if refs.length = 0 ∧ 0.2 < r then
          [{ code := "context_rating_without_sources",
             message := "Non-zero context rating reported despite missing source references.",
             severity := "error" : ArticleValidationIssue }]
        else []
      let d :=
        if density < 0.35 ∧ 400 < word_count ∧ 0.7 < r then
          [{ code := "context_rating_unrealistic",
             message := "Context rating appears too high for the detected citation coverage.",
             severity := "warning" : ArticleValidationIssue }]
        else []
      a ++ b ++ c ++ d
    | none =>
      if include_citations ∧ 0 < word_count then
        [{ code := "context_rating_missing",
           message := "Context rating is missing from metadata.",
           severity := "warning" : ArticleValidationIssue }]
      else []
  (issues, metrics)

/-- The full issue list assembled by ArticleValidator.validate before it
builds the result dict: word count, prompt leakage, quote formatting,
context-rating checks, in source order. -/
def validate_issues (ranges : List (String × (ℕ × ℕ))) (article_content : String)
    (metadata : Option ValidatorMetadata) (prompt_text : Option String)
    (length : String) (include_citations : Bool) : List ArticleValidationIssue :=
  let md := metadata.getD {}
  let word_count := count_words article_content
  (check_word_count ranges word_count length).toList
    ++ detect_prompt_leakage article_content prompt_text
    ++ check_quote_formatting article_content include_citations
    ++ (evaluate_context_rating article_content md word_count include_citations).1

/-- The `passed` flag validate computes: no error-severity issue. -/
def validate_passed (ranges : List (String × (ℕ × ℕ))) (article_content : String)
    (metadata : Option ValidatorMetadata) (prompt_text : Option String)
    (length : String) (include_citations : Bool) : Bool :=
  !((validate_issues ranges article_content metadata prompt_text length
      include_citations).any (fun i => i.severity == "error"))

/-- The report dict validate tries to build (shape only; it is never
successfully constructed, see `validate`). -/
structure ArticleReport where
  passed : Bool
  issues : List ArticleValidationIssue
  word_count : ℕ
  target_range : ℕ × ℕ
  metrics : RatingMetrics
  evaluated_at : String
  length : String
  style : Option String

/-- ArticleValidator.validate.  After computing `word_count`, all issues
and `passed`, the method builds the result dict whose `evaluated_at`
entry evaluates `datetime.utcnow()`; the module never imports `datetime`,
so the name lookup raises `NameError` and no report is returned. -/
def validate (ranges : List (String × (ℕ × ℕ))) (article_content : String)
    (metadata : Option ValidatorMetadata) (prompt_text : Option String)
    (length : String := "medium") (style : Option String := none)
    (include_citations : Bool := true) : Except PyErr ArticleReport :=
  let _style := style
  let _passed := validate_passed ranges article_content metadata prompt_text
    length include_citations
  .error (.nameError "datetime")

/-! ### Concrete fixtures for witnesses and counterexamples -/

/-- Oracles for a run with no usable externals: spaCy yields no sentences,
every LLM call raises (e.g. no client configured), no regex matches. -/
def failOracles : CitationOracles :=
  { sents := fun _ => []
    fuzzRatio100 := fun _ _ => 0
    llmSingle := fun _ _ => .error "no LLM client configured"
    llmBatch := fun _ _ => .error "no LLM client configured"
    findall := fun _ _ => [] }

/-- A batch reply item for the first citation only (the shape the prompt
requests, with `citation_number` present but ignored by the code). -/
def dropItem : BatchItem :=
  { citation_number := 1, citation_text := "A", is_accurate := true,
    accuracy_score := 0.9, source_found := true, source_id := some "s1",
    issues := [], confidence := 0.9 }

/-- Oracles whose batch LLM reply covers only one of the submitted
citations (a well-formed JSON reply with a single `results` item). -/
def dropOracles : CitationOracles :=
  { failOracles with llmBatch := fun _ _ => .ok [dropItem] }

/-- Two sources for the batch-drop scenario. -/
def sourcesAB : List Source :=
  [{ id := some "s1", content := "alpha content" },
   { id := some "s2", content := "beta content" }]

/-- A single source, for the `[Source 0]` scenario. -/
def sourcesOne : List Source :=
  [{ id := some "s1", content := "only source content" }]

/-- A source with no textual relation to the test citation. -/
def sourcesMismatch : List Source :=
  [{ id := some "s1", content := "totally different words entirely" }]

/-- Oracles realising a best fuzzy score of exactly 0.8: spaCy returns the
source text as one sentence and `fuzz.ratio("aaaaaaaaa bc",
"aaaaaaaaa def")` is 80 (both the difflib backend, 2·8/20 of the common
block of 10 over total length 25 → 200·10/25 = 80, and the
python-Levenshtein backend, (25−5)/25, give exactly 80). -/
def boundaryOracles : CitationOracles :=
  { failOracles with
    sents := fun t => [t]
    fuzzRatio100 := fun a b =>
      if a = "aaaaaaaaa bc" && b = "aaaaaaaaa def" then 80 else 0 }

/-- The source for the boundary scenario: shares the word `aaaaaaaaa`
(50% distinct-word overlap with the citation) but is not an exact match. -/
def sourcesFuzzy : List Source :=
  [{ id := some "src-1", content := "aaaaaaaaa def" }]

/-- Oracles realising a best fuzzy score of 0.92: `fuzz.ratio
("aaaaaaaaa bc", "aaaaaaaaa bd")` is 92 under both backends. -/
def fuzzyOkOracles : CitationOracles :=
  { failOracles with
    sents := fun t => [t]
    fuzzRatio100 := fun a b =>
      if a = "aaaaaaaaa bc" && b = "aaaaaaaaa bd" then 92 else 0 }

/-- The source for the accepted-fuzzy scenario. -/
def sourcesFuzzyHigh : List Source :=
  [{ id := some "src-1", content := "aaaaaaaaa bd" }]

/-- An article whose `[Source 1]` marker has no double quote anywhere in
the 120 characters before it. -/
def articleNoQuote : String :=
  "The committee reviewed the annual report and summarized key policy findings without quoting anyone directly [Source 1]."

/-! ### Helper lemmas -/

/-- The `min(1.0, max(0.0, ·))` clamp lands in the unit interval. -/
lemma clamp01_mem (x : ℚ) : 0 ≤ min 1 (max 0 x) ∧ min 1 (max 0 x) ≤ 1 :=
  ⟨le_min (by norm_num) (le_max_left 0 x), min_le_left 1 _⟩

/-- An average of list entries bounded in `[a, b]` stays in `[a, b]`. -/
lemma avg_mem {l : List ℚ} (hne : l ≠ []) {a b : ℚ}
    (h : ∀ x ∈ l, a ≤ x ∧ x ≤ b) :
    a ≤ l.sum / (l.length : ℚ) ∧ l.sum / (l.length : ℚ) ≤ b := by
  have hlen : (0 : ℚ) < (l.length : ℚ) := by
    have := List.length_pos.mpr hne
    exact_mod_cast this
  have hub : l.sum ≤ (l.length : ℚ) * b := by
    have := List.sum_le_card_nsmul l b (fun x hx => (h x hx).2)
    simpa [nsmul_eq_mul] using this
  have hlb : (l.length : ℚ) * a ≤ l.sum := by
    have := List.card_nsmul_le_sum l a (fun x hx => (h x hx).1)
    simpa [nsmul_eq_mul] using this
  constructor
  · rw [le_div_iff₀ hlen]
    linarith
  · rw [div_le_iff₀ hlen]
    linarith

/-- Each per-source reliability contribution lies in `[1/2, 1]`. -/
lemma sourceScore_mem (s : SourceMeta) : 1/2 ≤ sourceScore s ∧ sourceScore s ≤ 1 := by
  simp only [sourceScore]
  split_ifs <;> norm_num

/-- The citation accuracy component is clamped into `[0, 1]`. -/
lemma citation_accuracy_score_mem (l : List CitationResultIn) :
    0 ≤ calculate_citation_accuracy_score l ∧ calculate_citation_accuracy_score l ≤ 1 := by
  unfold calculate_citation_accuracy_score
  split
  · norm_num
  · exact clamp01_mem _

/-- The context preservation component is clamped into `[0, 1]`. -/
lemma context_preservation_score_mem (l : List ContextResultIn) :
    0 ≤ calculate_context_preservation_score l ∧ calculate_context_preservation_score l ≤ 1 := by
  unfold calculate_context_preservation_score
  split
  · norm_num
  · exact clamp01_mem _

/-- The source reliability component lies in `[0, 1]` although the code
never clamps it: each per-source sum of bonuses lies in `[1/2, 1]`, the
average of such sums stays there, and the no-metadata default is 0.8. -/
lemma source_reliability_score_mem (l : List SourceMeta) :
    0 ≤ calculate_source_reliability_score l ∧ calculate_source_reliability_score l ≤ 1 := by
  unfold calculate_source_reliability_score
  split
  · norm_num
  · rename_i hne
    have hne' : l ≠ [] := by
      simpa [List.isEmpty_iff] using hne
    have hmapne : l.map sourceScore ≠ [] := by
      simpa using hne'
    have h := avg_mem hmapne (a := 1/2) (b := 1) (by
      intro x hx
      rcases List.mem_map.mp hx with ⟨s, _, rfl⟩
      exact sourceScore_mem s)
    rw [List.length_map] at h
    exact ⟨by linarith [h.1], h.2⟩

/-- The coherence component is clamped into `[0, 1]`. -/
lemma text_coherence_score_mem (am : ArticleMeta) :
    0 ≤ calculate_text_coherence_score am ∧ calculate_text_coherence_score am ≤ 1 := by
  unfold calculate_text_coherence_score
  exact clamp01_mem _

/-! ### Claim theorems -/

/-- C1: for every input, every component score of the ConfidenceScore
returned by calculate_overall_confidence and the overall confidence lie in
[0, 1] — including the source reliability score, which is not clamped but
whose per-source total (base 0.5, +0.2 URL, +0.1 author, +0.1 date,
+0.1 or +0.05 type) never exceeds 1. -/
theorem confidence_components_in_unit_interval (cr : List CitationResultIn)
    (xr : List ContextResultIn) (am : ArticleMeta) (sm : List SourceMeta) :
    (0 ≤ (calculate_overall_confidence cr xr am sm).citation_accuracy_score ∧
      (calculate_overall_confidence cr xr am sm).citation_accuracy_score ≤ 1) ∧
    (0 ≤ (calculate_overall_confidence cr xr am sm).context_preservation_score ∧
      (calculate_overall_confidence cr xr am sm).context_preservation_score ≤ 1) ∧
    (0 ≤ (calculate_overall_confidence cr xr am sm).source_reliability_score ∧
      (calculate_overall_confidence cr xr am sm).source_reliability_score ≤ 1) ∧
    (0 ≤ (calculate_overall_confidence cr xr am sm).coherence_score ∧
      (calculate_overall_confidence cr xr am sm).coherence_score ≤ 1) ∧
    (0 ≤ (calculate_overall_confidence cr xr am sm).overall_confidence ∧
      (calculate_overall_confidence cr xr am sm).overall_confidence ≤ 1) := by
  have h1 := citation_accuracy_score_mem cr
  have h2 := context_preservation_score_mem xr
  have h3 := source_reliability_score_mem sm
  have h4 := text_coherence_score_mem am
  simp only [calculate_overall_confidence]
  refine ⟨h1, h2, h3, h4, ?_, ?_⟩
  · nlinarith [h1.1, h2.1, h3.1, h4.1]
  · nlinarith [h1.2, h2.2, h3.2, h4.2]

/-- C2: the overall confidence returned by calculate_overall_confidence is
exactly the 0.4/0.3/0.2/0.1-weighted sum of the four component scores of
the same returned ConfidenceScore (exact equality in the rational
semantics, hence well within the claimed 1e-6 tolerance). -/
theorem overall_confidence_is_weighted_sum (cr : List CitationResultIn)
    (xr : List ContextResultIn) (am : ArticleMeta) (sm : List SourceMeta) :
    (calculate_overall_confidence cr xr am sm).overall_confidence =
      0.4 * (calculate_overall_confidence cr xr am sm).citation_accuracy_score
      + 0.3 * (calculate_overall_confidence cr xr am sm).context_preservation_score
      + 0.2 * (calculate_overall_confidence cr xr am sm).source_reliability_score
      + 0.1 * (calculate_overall_confidence cr xr am sm).coherence_score := by
  simp only [calculate_overall_confidence]
  ring

/-- C9: every invocation of ArticleValidator.validate raises NameError
while building the result dict, because `datetime.utcnow()` is evaluated
but `datetime` is never imported in the module; no structural validation
report is ever returned to a caller. -/
theorem validate_always_raises_name_error (ranges : List (String × (ℕ × ℕ)))
    (article_content : String) (metadata : Option ValidatorMetadata)
    (prompt_text : Option String) (length : String) (style : Option String)
    (include_citations : Bool) :
    validate ranges article_content metadata prompt_text length style include_citations
      = .error (.nameError "datetime") := rfl

/-- C8: the claimed behaviour — a returned report flagging
`source_reference_without_quote` — is the clear intent, but the code slips:
on an article whose `[Source 1]` has no double quote in the preceding 120
characters, validate does compute the error-severity
`source_reference_without_quote` issue and a false `passed` flag, yet it
then raises NameError (missing `datetime` import) instead of returning the
report. -/
theorem source_ref_without_quote_computed_but_never_returned :
    ((validate_issues DEFAULT_LENGTH_RANGES articleNoQuote none none "medium" true).any
      (fun i => i.code == "source_reference_without_quote" && i.severity == "error")) = true ∧
    validate_passed DEFAULT_LENGTH_RANGES articleNoQuote none none "medium" true = false ∧
    validate DEFAULT_LENGTH_RANGES articleNoQuote none none "medium" none true
      = .error (.nameError "datetime") := by
  refine ⟨by decide, by decide, rfl⟩

/-- C4: a `[Source N]` citation resolves by 1-based position and an N
above the list length is rejected with an issue, but the code mishandles
N = 0: the guard `source_number <= len(sources)` lets 0 through and
Python's `sources[-1]` resolves it to the LAST source (source_found true,
no issue) — and raises IndexError when the source list is empty — instead
of the claimed `source_found = false` with an issue naming the missing
source. -/
theorem source_zero_resolves_to_last_source :
    (validate_single_citation failOracles "[Source 0]" sourcesOne).map
      (fun r => (r.source_found, r.source_id, r.issues, r.confidence))
      = .ok (true, some "s1", [], 1) ∧
    validate_single_citation failOracles "[Source 0]" [] = .error .indexError ∧
    (validate_single_citation failOracles "[Source 2]" sourcesOne).map
      (fun r => (r.source_found, r.issues))
      = .ok (false, ["Source 2 not found in available sources"]) := by
  refine ⟨by decide, by decide, by decide⟩

/-- C3: the claim that validate_citations returns exactly one result per
input citation, reconciling short batch replies, is the documented intent
(its docstring promises a result "for each citation"), but the code
converts whatever items the batch LLM reply contains without reconciling
by citation number: for citations ["A", "B"] and a well-formed batch reply
covering only citation "A", the returned list has a single element — "B"
is silently dropped instead of yielding an unresolved zero-confidence
result. -/
theorem batch_reply_shorter_drops_citations :
    (validate_citations dropOracles "" sourcesAB 0.8 (some ["A", "B"])).map
      (fun rs => rs.map (fun r => r.citation_text)) = .ok ["A"] := by
  decide

/-- C7: for a citation analyzed individually against a resolved source,
`context_preserved` holds iff both similarity scores reach 0.7 and the LLM
judgment says preserved, and the confidence is the 0.4/0.3/0.3 blend of
the semantic score, the context score and the LLM confidence. -/
theorem context_preserved_iff_thresholds_and_llm (O : ContextOracles)
    (citation : String) (source : Source) (article_content : String) :
    ((validate_single_context O citation source article_content).context_preserved = true ↔
      (0.7 ≤ (validate_single_context O citation source article_content).semantic_similarity_score
        ∧ 0.7 ≤ (validate_single_context O citation source article_content).context_similarity_score
        ∧ (analyze_with_llm O citation
            (extract_original_context citation source.content)
            (extract_article_context citation article_content)).context_preserved = true)) ∧
    (validate_single_context O citation source article_content).confidence =
      0.4 * (validate_single_context O citation source article_content).semantic_similarity_score
      + 0.3 * (validate_single_context O citation source article_content).context_similarity_score
      + 0.3 * (analyze_with_llm O citation
          (extract_original_context citation source.content)
          (extract_article_context citation article_content)).confidence := by
  constructor
  · simp only [validate_single_context, Bool.and_eq_true, decide_eq_true_eq, and_assoc]
  · simp only [validate_single_context]
    ring

/-- C5 counterexample: with a best fuzzy score of exactly 0.8 (realised by
`fuzz.ratio("aaaaaaaaa bc", "aaaaaaaaa def") = 80` over a candidate
sentence with 50% word overlap and no exact match), the claim demands
acceptance at the fuzzy tier (`source_found = true`, confidence 0.8), but
`_validate_single_citation` tests `fuzzy_match_score > 0.8` and falls
through to the LLM tier, here yielding a zero-confidence failure result. -/
theorem fuzzy_score_exactly_08_falls_to_llm_tier :
    (find_fuzzy_match boundaryOracles "aaaaaaaaa bc" sourcesFuzzy).1 = 0.8 ∧
    (validate_single_citation boundaryOracles "aaaaaaaaa bc" sourcesFuzzy).map
      (fun r => (r.source_found, r.is_accurate, r.confidence, r.issues))
      = .ok (false, false, 0, ["LLM validation failed"]) := by
  refine ⟨by with_unfolding_all decide, by with_unfolding_all decide⟩

/-- C5 (amended): when the best fuzzy score over the ≥50%-word-overlap
candidate sentences is strictly greater than 0.8 (rather than ≥ 0.8 as
claimed), and neither the `[Source N]` fast path nor an exact match fires,
the citation is accepted at the fuzzy tier with `source_found = true`,
`is_accurate = true`, and confidence equal to that best score. -/
theorem fuzzy_score_above_08_accepted (O : CitationOracles) (citation : String)
    (sources : List Source)
    (hsr : parseSourceRef citation = none)
    (hex : (find_exact_match citation sources).1 = false)
    (hfz : 0.8 < (find_fuzzy_match O citation sources).1) :
    validate_single_citation O citation sources = .ok
      { citation_text := citation, is_accurate := true,
        accuracy_score := (find_fuzzy_match O citation sources).1,
        exact_match := false,
        fuzzy_match_score := (find_fuzzy_match O citation sources).1,
        source_found := true, source_id := (find_fuzzy_match O citation sources).2,
        issues := [], confidence := (find_fuzzy_match O citation sources).1 } := by
  simp [validate_single_citation, hsr, hex, hfz]

/-- Witness for the amended C5: `fuzz.ratio("aaaaaaaaa bc",
"aaaaaaaaa bd") = 92`, so the best fuzzy score is 0.92 and the citation is
accepted at the fuzzy tier with that confidence. -/
theorem fuzzy_score_above_08_accepted_witness :
    (parseSourceRef "aaaaaaaaa bc" = none) ∧
    ((find_exact_match "aaaaaaaaa bc" sourcesFuzzyHigh).1 = false) ∧
    (0.8 < (find_fuzzy_match fuzzyOkOracles "aaaaaaaaa bc" sourcesFuzzyHigh).1) ∧
    validate_single_citation fuzzyOkOracles "aaaaaaaaa bc" sourcesFuzzyHigh = .ok
      { citation_text := "aaaaaaaaa bc", is_accurate := true,
        accuracy_score := (find_fuzzy_match fuzzyOkOracles "aaaaaaaaa bc" sourcesFuzzyHigh).1,
        exact_match := false,
        fuzzy_match_score := (find_fuzzy_match fuzzyOkOracles "aaaaaaaaa bc" sourcesFuzzyHigh).1,
        source_found := true,
        source_id := (find_fuzzy_match fuzzyOkOracles "aaaaaaaaa bc" sourcesFuzzyHigh).2,
        issues := [],
        confidence := (find_fuzzy_match fuzzyOkOracles "aaaaaaaaa bc" sourcesFuzzyHigh).1 } :=
  ⟨by with_unfolding_all decide, by with_unfolding_all decide,
   by with_unfolding_all decide,
   fuzzy_score_above_08_accepted fuzzyOkOracles "aaaaaaaaa bc" sourcesFuzzyHigh
     (by with_unfolding_all decide) (by with_unfolding_all decide)
     (by with_unfolding_all decide)⟩

/-- C6: for a citation that reaches the LLM tier (not a `[Source N]`
reference, no exact match, best fuzzy score not above 0.8), an exception
from the LLM adapter call — including the attribute error raised when no
adapter is configured — is caught and converted into a result with
`source_found = false`, confidence 0, and the issue naming the failure;
nothing propagates. -/
theorem llm_failure_yields_flagged_zero_confidence (O : CitationOracles)
    (citation : String) (sources : List Source) (e : String)
    (hsr : parseSourceRef citation = none)
    (hex : (find_exact_match citation sources).1 = false)
    (hfz : (find_fuzzy_match O citation sources).1 ≤ 0.8)
    (hllm : O.llmSingle citation sources = .error e) :
    validate_single_citation O citation sources = .ok
      { citation_text := citation, is_accurate := false, accuracy_score := 0,
        exact_match := false,
        fuzzy_match_score := (find_fuzzy_match O citation sources).1,
        source_found := false, source_id := none,
        issues := ["LLM validation failed"], confidence := 0 } := by
  have hfz' : ¬ (0.8 : ℚ) < (find_fuzzy_match O citation sources).1 := not_lt.mpr hfz
  simp [validate_single_citation, validate_with_llm, hsr, hex, hfz', hllm]

/-- Witness for C6: a citation with no matching source and an
unconfigured LLM client yields the zero-confidence flagged result. -/
theorem llm_failure_yields_flagged_zero_confidence_witness :
    (parseSourceRef "hello brave new world" = none) ∧
    ((find_exact_match "hello brave new world" sourcesMismatch).1 = false) ∧
    ((find_fuzzy_match failOracles "hello brave new world" sourcesMismatch).1 ≤ 0.8) ∧
    (failOracles.llmSingle "hello brave new world" sourcesMismatch
      = .error "no LLM client configured") ∧
    validate_single_citation failOracles "hello brave new world" sourcesMismatch = .ok
      { citation_text := "hello brave new world", is_accurate := false,
        accuracy_score := 0, exact_match := false,
        fuzzy_match_score :=
          (find_fuzzy_match failOracles "hello brave new world" sourcesMismatch).1,
        source_found := false, source_id := none,
        issues := ["LLM validation failed"], confidence := 0 } :=
  ⟨by with_unfolding_all decide, by with_unfolding_all decide,
   by with_unfolding_all decide, rfl,
   llm_failure_yields_flagged_zero_confidence failOracles "hello brave new world"
     sourcesMismatch "no LLM client configured" (by with_unfolding_all decide)
     (by with_unfolding_all decide) (by with_unfolding_all decide) rfl⟩

/-- Membership in the first-occurrence dedup implies membership in the
original list. -/
lemma mem_dedupFirstAux {x : String} : ∀ {seen l : List String},
    x ∈ dedupFirstAux seen l → x ∈ l := by
  intro seen l
  induction l generalizing seen with
  | nil => intro h; simp [dedupFirstAux] at h
  | cons y ys ih =>
    intro h
    simp only [dedupFirstAux] at h
    split at h
    · exact List.mem_cons_of_mem _ (ih h)
    · rcases List.mem_cons.mp h with h1 | h2
      · exact h1 ▸ List.mem_cons_self _ _
      · exact List.mem_cons_of_mem _ (ih h2)

/-- Membership in `dedupFirst` implies membership in the original list. -/
lemma mem_dedupFirst {x : String} {l : List String} (h : x ∈ dedupFirst l) : x ∈ l :=
  mem_dedupFirstAux h

/-- A successful case-sensitive literal match means the text starts with
the literal. -/
lemma matchLitCI_false_some : ∀ {ps l rest : List Char},
    matchLitCI false ps l = some rest → l = ps ++ rest := by
  intro ps
  induction ps with
  | nil =>
    intro l rest h
    simp only [matchLitCI, Option.some.injEq] at h
    simp [h]
  | cons p ps ih =>
    intro l rest h
    cases l with
    | nil => simp [matchLitCI] at h
    | cons c cs =>
      simp only [matchLitCI] at h
      split at h
      · rename_i hc
        have hpc : p = c := by simpa [charEqCI] using hc
        subst hpc
        simp [ih h]
      · exact absurd h (by simp)

/-- Inversion of `matchSourceRef`: a successful match exposes the literal
`[Source ` head, a nonempty digit run, and the closing bracket. -/
lemma matchSourceRef_some {l : List Char} {n : ℕ} {rest : List Char}
    (h : matchSourceRef l = some (n, rest)) :
    ∃ mid, l = '[' :: 'S' :: 'o' :: 'u' :: 'r' :: 'c' :: 'e' :: ' ' :: mid ∧
      (mid.takeWhile Char.isDigit).isEmpty = false ∧
      mid.dropWhile Char.isDigit = ']' :: rest := by
  unfold matchSourceRef at h
  cases hm : matchLitCI false ['[', 'S', 'o', 'u', 'r', 'c', 'e', ' '] l with
  | none => rw [hm] at h; exact absurd h (by simp)
  | some mid =>
    rw [hm] at h
    have hl := matchLitCI_false_some hm
    cases hemp : (mid.takeWhile Char.isDigit).isEmpty with
    | true =>
      simp only [hemp] at h
      exact absurd h (by simp)
    | false =>
      simp only [hemp] at h
      split at h
      · exact absurd h (by simp)
      · split at h
        · rename_i tail hd
          simp only [Option.some.injEq, Prod.mk.injEq] at h
          refine ⟨mid, by simpa using hl, hemp, ?_⟩
          rw [hd, h.2]
        · exact absurd h (by simp)

/-- Digit characters are not Python whitespace. -/
lemma not_space_of_digit {c : Char} (h : c.isDigit = true) : isPySpace c = false := by
  by_contra hs
  have hs' : isPySpace c = true := by simpa using hs
  simp only [isPySpace, Bool.or_eq_true, decide_eq_true_eq] at hs'
  rcases hs' with (((((h1 | h1) | h1) | h1) | h1) | h1) <;> subst h1 <;>
    exact absurd h (by decide)

/-- Whitespace collapsing fixes a list with no whitespace at all. -/
lemma collapseWs_eq_self_of_no_space : ∀ {l : List Char},
    (∀ c ∈ l, isPySpace c = false) → collapseWs l = l := by
  intro l
  induction l with
  | nil => intro _; rfl
  | cons c cs ih =>
    intro h
    have hc : isPySpace c = false := h c (List.mem_cons_self c cs)
    cases cs with
    | nil => simp [collapseWs, hc]
    | cons c2 cs2 =>
      have ih' := ih (fun x hx => h x (List.mem_cons_of_mem _ hx))
      simp [collapseWs, hc, ih']

/-- Whitespace collapsing fixes a `[Source ` head followed by a nonempty
whitespace-free tail. -/
lemma collapseWs_marker {mid : List Char} (hmid : ∀ c ∈ mid, isPySpace c = false)
    (hne : mid ≠ []) :
    collapseWs ('[' :: 'S' :: 'o' :: 'u' :: 'r' :: 'c' :: 'e' :: ' ' :: mid)
      = '[' :: 'S' :: 'o' :: 'u' :: 'r' :: 'c' :: 'e' :: ' ' :: mid := by
  cases mid with
  | nil => exact absurd rfl hne
  | cons d ds =>
    have hd : isPySpace d = false := hmid d (List.mem_cons_self d ds)
    have hrest : collapseWs (d :: ds) = d :: ds :=
      collapseWs_eq_self_of_no_space hmid
    simp [collapseWs, hd, hrest,
      (by decide : isPySpace '[' = false), (by decide : isPySpace 'S' = false),
      (by decide : isPySpace 'o' = false), (by decide : isPySpace 'u' = false),
      (by decide : isPySpace 'r' = false), (by decide : isPySpace 'c' = false),
      (by decide : isPySpace 'e' = false), (by decide : isPySpace ' ' = true)]

/-- Stripping fixes a list whose first and last characters are not
whitespace. -/
lemma stripChars_eq_self {l : List Char}
    (hhead : ∀ c, l.head? = some c → isPySpace c = false)
    (hlast : ∀ c, l.getLast? = some c → isPySpace c = false) :
    stripChars l = l := by
  unfold stripChars
  have h1 : l.dropWhile isPySpace = l := by
    cases l with
    | nil => rfl
    | cons a as =>
      rw [List.dropWhile_cons, hhead a rfl]
      simp
  rw [h1]
  have h2 : l.reverse.dropWhile isPySpace = l.reverse := by
    cases hr : l.reverse with
    | nil => rfl
    | cons b bs =>
      have hb : l.getLast? = some b := by
        rw [← List.head?_reverse, hr]
        rfl
      rw [List.dropWhile_cons, hlast b hb]
      simp
  rw [h2, List.reverse_reverse]

/-- A bare `[Source N]` marker is reduced to the empty string by
`_clean_citation`: strip and collapse leave it unchanged, and the leading
source-marker removal then deletes all of it. -/
lemma bare_marker_cleans_to_empty {m : String} (h : isBareSourceMarker m = true) :
    clean_citation m = "" := by
  unfold isBareSourceMarker at h
  cases hm : matchSourceRef m.data with
  | none => rw [hm] at h; simp at h
  | some p =>
    rw [hm] at h
    obtain ⟨n, tl⟩ := p
    cases tl with
    | cons x xs => simp at h
    | nil =>
      obtain ⟨mid, hdata, hne, hdrop⟩ := matchSourceRef_some hm
      have hmidchars : ∀ c ∈ mid, isPySpace c = false := by
        intro c hc
        have hsplit : mid.takeWhile Char.isDigit ++ mid.dropWhile Char.isDigit = mid :=
          List.takeWhile_append_dropWhile _ _
        rw [← hsplit] at hc
        rcases List.mem_append.mp hc with hc1 | hc2
        · exact not_space_of_digit (List.mem_takeWhile_imp hc1)
        · rw [hdrop] at hc2
          rcases List.mem_cons.mp hc2 with hc3 | hc4
          · subst hc3; decide
          · exact absurd hc4 (List.not_mem_nil c)
      have hmidne : mid ≠ [] := by
        intro hemp
        rw [hemp] at hdrop
        exact absurd hdrop (by simp)
      have hlastm : mid.getLast? = some ']' := by
        have hsplit : mid.takeWhile Char.isDigit ++ mid.dropWhile Char.isDigit = mid :=
          List.takeWhile_append_dropWhile _ _
        rw [← hsplit, hdrop]
        exact List.getLast?_concat _
      have hstrip : stripChars m.data = m.data := by
        apply stripChars_eq_self
        · intro c hc
          rw [hdata] at hc
          simp only [List.head?_cons, Option.some.injEq] at hc
          subst hc; decide
        · intro c hc
          rw [hdata] at hc
          rw [show ('[' :: 'S' :: 'o' :: 'u' :: 'r' :: 'c' :: 'e' :: ' ' :: mid).getLast?
                = mid.getLast? from
              List.getLast?_append_of_ne_nil ['[', 'S', 'o', 'u', 'r', 'c', 'e', ' '] hmidne] at hc
          rw [hlastm] at hc
          have : ']' = c := by simpa using hc
          subst this; decide
      have hcoll : collapseWs m.data = m.data := by
        rw [hdata]
        exact collapseWs_marker hmidchars hmidne
      have hdropref : dropSourceRefHead m.data = [] := by
        unfold dropSourceRefHead
        rw [hm]
        rfl
      simp only [clean_citation, hstrip, hcoll, hdropref]
      rfl

/-- C10: every citation returned by `_extract_citations` has length
between 10 and 500 inclusive (the length filter runs after cleaning), a
bare `[Source N]` marker — the shape of every full match of the
source-reference pattern — is reduced to the empty string by
`_clean_citation`, and consequently every returned citation is the
cleanup of some raw regex match that is not a bare marker: the marker
matches themselves never survive into the returned list. -/
theorem extracted_citations_bounded_and_markers_dropped (O : CitationOracles)
    (text : String) :
    (∀ c ∈ extract_citations O text, 10 ≤ c.length ∧ c.length ≤ 500) ∧
    (∀ m, isBareSourceMarker m = true → clean_citation m = "") ∧
    (∀ c ∈ extract_citations O text, ∃ r, r ∈ rawMatches O text ∧
      clean_citation r = c ∧ isBareSourceMarker r = false) := by
  have hmem : ∀ c ∈ extract_citations O text,
      c ∈ (dedupFirst (rawMatches O text)).map clean_citation ∧
      (10 ≤ c.length ∧ c.length ≤ 500) := by
    intro c hc
    simp only [extract_citations] at hc
    have hc1 := (List.mem_filter.mp hc).1
    have hc2 := List.mem_filter.mp hc1
    refine ⟨hc2.1, ?_⟩
    have := hc2.2
    simp only [Bool.and_eq_true, decide_eq_true_eq] at this
    exact this
  refine ⟨fun c hc => (hmem c hc).2, fun m hm => bare_marker_cleans_to_empty hm, ?_⟩
  intro c hc
  obtain ⟨hmap, hlen⟩ := hmem c hc
  obtain ⟨r, hr, hrc⟩ := List.mem_map.mp hmap
  refine ⟨r, mem_dedupFirst hr, hrc, ?_⟩
  by_contra hb
  have hb' : isBareSourceMarker r = true := by simpa using hb
  have : clean_citation r = "" := bare_marker_cleans_to_empty hb'
  rw [this] at hrc
  rw [← hrc] at hlen
  simp [String.length] at hlen

end DocAudit
